import Mathlib

/-!
Shallow embedding of the OpenCitations API client library
(`src/opencitations/lib.ts`): identifier normalization, request
construction, response decoding and text formatting, together with
theorems about their behaviour.

JavaScript strings are modelled as Lean `String`; the truthiness test
`s || d` on strings is `jsOr`, and `if (s)` on an optional string is an
explicit emptiness test.  The HTTP layer is modelled by passing an
explicit fetch environment `Request → FetchResponse α`: the TypeScript
`fetch` returns a response whose `ok` field is true exactly when the
status lies in 200..299, and `response.json() as Promise<T>` is an
unchecked cast, so a successfully fetched body is modelled as an
already-typed value.
-/

namespace OpenCitations

/-- One directed citation edge, mirroring the `Citation` interface. -/
structure Citation where
  oci : String
  citing : String
  cited : String
  creation : String
  timespan : String
  journal_sc : String
  author_sc : String
deriving DecidableEq, Repr

/-- Element of a count response, mirroring the `CitationCount` interface. -/
structure CitationCount where
  count : String
deriving DecidableEq, Repr

/-- Mirrors `const BASE_URL = "https://api.opencitations.net/index/v2"`. -/
def BASE_URL : String := "https://api.opencitations.net/index/v2"

/-- Strip an exact character-list prefix: `some rest` when `p` is a prefix
of the second argument and `rest` is what remains, `none` otherwise. -/
def stripPrefixCh : List Char → List Char → Option (List Char)
  | [], s => some s
  | _ :: _, [] => none
  | p :: ps, c :: cs => if p = c then stripPrefixCh ps cs else none

/-- String `s` starts with `p` (model of JavaScript `s.startsWith(p)`). -/
def strStartsWith (s p : String) : Bool := (stripPrefixCh p.data s.data).isSome

/-- Model of the JavaScript string truthiness default `s || d`:
an empty string is falsy, so it yields `d`; any other string yields `s`. -/
def jsOr (s d : String) : String := if s = "" then d else s

/-- Mirrors `doi.replace(/^https?:\/\/doi\.org\//, "")`: the anchored
regex matches the literal characters `http`, an optional `s`, then
`://doi.org/`, all case-sensitively (the regex has no `i` flag), and the
match is removed.  At most one of the two alternatives can match. -/
def stripDoiUrlPrefix (s : String) : String :=
  match stripPrefixCh "https://doi.org/".data s.data with
  | some r => ⟨r⟩
  | none =>
    match stripPrefixCh "http://doi.org/".data s.data with
    | some r => ⟨r⟩
    | none => s

/-- Mirrors `formatDoi`: strip a leading `http(s)://doi.org/` URL prefix,
then prepend `doi:` unless the result already starts with it. -/
def formatDoi (doi : String) : String :=
  if strStartsWith (stripDoiUrlPrefix doi) "doi:" then stripDoiUrlPrefix doi
  else "doi:" ++ stripDoiUrlPrefix doi

/-- Mirrors `formatIssn`: prepend `issn:` unless already present. -/
def formatIssn (issn : String) : String :=
  if strStartsWith issn "issn:" then issn else "issn:" ++ issn

/-- Model of JavaScript `parseInt(s, 10)` on a character list without the
leading-whitespace and sign handling: the longest leading run of decimal
digits is read in base 10; with no leading digit the result is `none`
(JavaScript `NaN`). -/
def jsParseIntCore (cs : List Char) : Option Int :=
  let ds := cs.takeWhile Char.isDigit
  if ds.isEmpty then none
  else some (Int.ofNat (ds.foldl (fun a c => 10 * a + (c.toNat - 48)) 0))

/-- Model of JavaScript `parseInt(s, 10)`: skip leading whitespace, read an
optional sign, then the longest leading run of decimal digits in base 10;
`none` stands for `NaN`. -/
def jsParseInt (s : String) : Option Int :=
  match s.data.dropWhile Char.isWhitespace with
  | '-' :: rest => (jsParseIntCore rest).map (fun n => -n)
  | '+' :: rest => jsParseIntCore rest
  | cs => jsParseIntCore cs

/-- The request `apiRequest` hands to `fetch`: the URL and the header map
(modelled as an association list in insertion order). -/
structure Request where
  url : String
  headers : List (String × String)
deriving DecidableEq, Repr

/-- A `fetch` response with a body already of the endpoint's type, since
`response.json() as Promise<T>` casts without validation. -/
structure FetchResponse (α : Type) where
  status : Nat
  statusText : String
  body : α
deriving DecidableEq, Repr

/-- `response.ok` of `fetch`: status in the range 200..299. -/
def respOk {α : Type} (r : FetchResponse α) : Bool :=
  200 ≤ r.status && r.status ≤ 299

/-- The failure `apiRequest` throws on a non-ok response; it carries the
status and status text that the thrown message interpolates. -/
inductive ApiError where
  | requestFailure (status : Nat) (statusText : String)
deriving DecidableEq, Repr

/-- The message of the thrown error, mirroring the template string
interpolating the status and status text. -/
def ApiError.message : ApiError → String
  | .requestFailure status statusText =>
    "API request failed: " ++ toString status ++ " " ++ statusText

/-- Header construction inside `apiRequest`: always `Accept`, and
`Authorization` set to the token verbatim when `if (accessToken)` is
truthy, i.e. when the token is present and non-empty. -/
def buildHeaders (accessToken : Option String) : List (String × String) :=
  let hs := [("Accept", "application/json")]
  match accessToken with
  | some t => if t = "" then hs else hs ++ [("Authorization", t)]
  | none => hs

/-- The request `apiRequest` builds: `BASE_URL` concatenated with the
endpoint, plus the headers. -/
def builtRequest (endpoint : String) (accessToken : Option String) : Request :=
  ⟨BASE_URL ++ endpoint, buildHeaders accessToken⟩

/-- Mirrors `apiRequest`: build the request, run it against the fetch
environment, throw on a non-ok status, otherwise return the body. -/
def apiRequest {α : Type} (fetchEnv : Request → FetchResponse α)
    (endpoint : String) (accessToken : Option String) : Except ApiError α :=
  let response := fetchEnv (builtRequest endpoint accessToken)
  if respOk response then .ok response.body
  else .error (.requestFailure response.status response.statusText)

/-- Mirrors `getCitationCount`: fetch `/citation-count/{id}`, return 0 on
an empty list, else `parseInt(data[0].count, 10)`. -/
def getCitationCount (fetchEnv : Request → FetchResponse (List CitationCount))
    (id : String) (accessToken : Option String) : Except ApiError (Option Int) :=
  match apiRequest fetchEnv ("/citation-count/" ++ id) accessToken with
  | .error e => .error e
  | .ok [] => .ok (some 0)
  | .ok (c :: _) => .ok (jsParseInt c.count)

/-- Mirrors `getCitations`: fetch `/citations/{id}` and pass the list through. -/
def getCitations (fetchEnv : Request → FetchResponse (List Citation))
    (id : String) (accessToken : Option String) : Except ApiError (List Citation) :=
  apiRequest fetchEnv ("/citations/" ++ id) accessToken

/-- Mirrors `getReferenceCount`: fetch `/reference-count/{id}`, return 0 on
an empty list, else `parseInt(data[0].count, 10)`. -/
def getReferenceCount (fetchEnv : Request → FetchResponse (List CitationCount))
    (id : String) (accessToken : Option String) : Except ApiError (Option Int) :=
  match apiRequest fetchEnv ("/reference-count/" ++ id) accessToken with
  | .error e => .error e
  | .ok [] => .ok (some 0)
  | .ok (c :: _) => .ok (jsParseInt c.count)

/-- Mirrors `getReferences`: fetch `/references/{id}` and pass the list through. -/
def getReferences (fetchEnv : Request → FetchResponse (List Citation))
    (id : String) (accessToken : Option String) : Except ApiError (List Citation) :=
  apiRequest fetchEnv ("/references/" ++ id) accessToken

/-- Mirrors `getCitation`: fetch `/citation/{oci}`; the result is
`data.length > 0 ? data[0] : null`, i.e. the head of the list if any. -/
def getCitation (fetchEnv : Request → FetchResponse (List Citation))
    (oci : String) (accessToken : Option String) : Except ApiError (Option Citation) :=
  match apiRequest fetchEnv ("/citation/" ++ oci) accessToken with
  | .error e => .error e
  | .ok data => .ok data.head?

/-- Mirrors `getVenueCitationCount`: fetch `/venue-citation-count/{issn}`,
return 0 on an empty list, else `parseInt(data[0].count, 10)`. -/
def getVenueCitationCount (fetchEnv : Request → FetchResponse (List CitationCount))
    (issn : String) (accessToken : Option String) : Except ApiError (Option Int) :=
  match apiRequest fetchEnv ("/venue-citation-count/" ++ issn) accessToken with
  | .error e => .error e
  | .ok [] => .ok (some 0)
  | .ok (c :: _) => .ok (jsParseInt c.count)

/-- The `lines` array of `formatCitationAsText`, with the `||` defaults
on `creation`, `timespan`, `journal_sc` and `author_sc`. -/
def formatCitationLines (citation : Citation) : List String :=
  ["OCI: " ++ citation.oci,
   "Citing: " ++ citation.citing,
   "Cited: " ++ citation.cited,
   "Date: " ++ jsOr citation.creation "N/A",
   "Timespan: " ++ jsOr citation.timespan "N/A",
   "Journal self-citation: " ++ jsOr citation.journal_sc "no",
   "Author self-citation: " ++ jsOr citation.author_sc "no"]

/-- Mirrors `formatCitationAsText`: the `lines` array joined with `"\n"`. -/
def formatCitationAsText (citation : Citation) : String :=
  String.intercalate "\n" (formatCitationLines citation)

/-- The per-entry `lines` array of `formatCitationsAsText` for the entry
`c` at zero-based index `i`: four fixed lines, then a journal and an
author self-citation annotation pushed only when the flag is `"yes"`. -/
def citationBlockLines (i : Nat) (c : Citation) : List String :=
  ["[" ++ toString (i + 1) ++ "] OCI: " ++ c.oci,
   "    Citing: " ++ c.citing,
   "    Cited: " ++ c.cited,
   "    Date: " ++ jsOr c.creation "N/A"]
  ++ (if c.journal_sc = "yes" then ["    (Journal self-citation)"] else [])
  ++ (if c.author_sc = "yes" then ["    (Author self-citation)"] else [])

/-- Mirrors `formatCitationsAsText`: the fixed literal on an empty list,
otherwise each entry's block joined with `"\n"` and the blocks joined
with `"\n\n"`; `citations.map((c, i) => ...)` supplies zero-based
indices, modelled with `List.enum`. -/
def formatCitationsAsText (citations : List Citation) : String :=
  if citations.length = 0 then "No citations found."
  else String.intercalate "\n\n"
    (citations.enum.map (fun p => String.intercalate "\n" (citationBlockLines p.1 p.2)))

example : formatDoi "10.1/x" = "doi:10.1/x" := by decide
example : formatDoi "https://doi.org/10.1/x" = "doi:10.1/x" := by decide
example : formatDoi "http://doi.org/10.1/x" = "doi:10.1/x" := by decide
example : formatDoi "HTTP://doi.org/10.1/x" = "doi:HTTP://doi.org/10.1/x" := by decide
example : formatDoi "doi:10.1/x" = "doi:10.1/x" := by decide
example : formatIssn "0138-9130" = "issn:0138-9130" := by decide
example : formatIssn "issn:0138-9130" = "issn:0138-9130" := by decide

lemma stripPrefixCh_append (p s : List Char) : stripPrefixCh p (p ++ s) = some s := by
  induction p with
  | nil => rfl
  | cons c cs ih => simp [stripPrefixCh, ih]

lemma stripPrefixCh_eq_some {p s r : List Char} (h : stripPrefixCh p s = some r) :
    s = p ++ r := by
  induction p generalizing s with
  | nil =>
    simp only [stripPrefixCh, Option.some.injEq] at h
    simp [h]
  | cons c cs ih =>
    cases s with
    | nil => simp [stripPrefixCh] at h
    | cons a as =>
      by_cases hc : c = a
      · subst hc
        simp only [stripPrefixCh, if_pos rfl] at h
        simp [ih h]
      · simp [stripPrefixCh, hc] at h

lemma strStartsWith_iff {s p : String} :
    strStartsWith s p = true ↔ ∃ r, s.data = p.data ++ r := by
  unfold strStartsWith
  constructor
  · intro h
    cases hx : stripPrefixCh p.data s.data with
    | none => rw [hx] at h; simp at h
    | some r => exact ⟨r, stripPrefixCh_eq_some hx⟩
  · rintro ⟨r, hr⟩
    rw [hr, stripPrefixCh_append]
    rfl

lemma strStartsWith_false {s p : String} (h : strStartsWith s p = false) :
    stripPrefixCh p.data s.data = none := by
  cases hx : stripPrefixCh p.data s.data with
  | none => rfl
  | some r => rw [strStartsWith, hx] at h; simp at h

lemma string_ne_of_nth {s t : String} {k : Nat} {a b : Char}
    (ha : s.data.get? k = some a) (hb : t.data.get? k = some b) (hab : a ≠ b) : s ≠ t := by
  intro h
  subst h
  rw [ha] at hb
  exact hab (Option.some.inj hb)

lemma string_ne_of_nth_none {s t : String} {k : Nat} {a : Char}
    (ha : s.data.get? k = some a) (hb : t.data.get? k = none) : s ≠ t := by
  intro h
  subst h
  rw [ha] at hb
  exact Option.noConfusion hb

lemma stripDoiUrlPrefix_of_doi {s : String} (h : strStartsWith s "doi:" = true) :
    stripDoiUrlPrefix s = s := by
  obtain ⟨r, hr⟩ := strStartsWith_iff.mp h
  have h1 : stripPrefixCh "https://doi.org/".data s.data = none := by rw [hr]; rfl
  have h2 : stripPrefixCh "http://doi.org/".data s.data = none := by rw [hr]; rfl
  simp only [stripDoiUrlPrefix, h1, h2]

lemma formatDoi_startsWith (s : String) : strStartsWith (formatDoi s) "doi:" = true := by
  unfold formatDoi
  cases h : strStartsWith (stripDoiUrlPrefix s) "doi:" with
  | true => rw [if_pos rfl]; exact h
  | false =>
    rw [if_neg (by simp)]
    exact strStartsWith_iff.mpr ⟨(stripDoiUrlPrefix s).data, rfl⟩

lemma formatDoi_of_startsWith {s : String} (h : strStartsWith s "doi:" = true) :
    formatDoi s = s := by
  unfold formatDoi
  rw [stripDoiUrlPrefix_of_doi h, if_pos h]

lemma formatIssn_startsWith (s : String) : strStartsWith (formatIssn s) "issn:" = true := by
  unfold formatIssn
  cases h : strStartsWith s "issn:" with
  | true => rw [if_pos rfl]; exact h
  | false =>
    rw [if_neg (by simp)]
    exact strStartsWith_iff.mpr ⟨s.data, rfl⟩

lemma formatIssn_of_startsWith {s : String} (h : strStartsWith s "issn:" = true) :
    formatIssn s = s := by
  unfold formatIssn
  rw [if_pos h]

/-- C4: for every string `s` that does not start with `doi:` and does not
begin with an `http(s)://doi.org/` URL prefix (the regex is anchored, so
only a leading occurrence of a `doi.org` URL is ever relevant),
`formatDoi` returns `"doi:" ++ s`. -/
theorem c4_formatDoi_prepends (s : String)
    (h1 : strStartsWith s "doi:" = false)
    (h2 : strStartsWith s "https://doi.org/" = false)
    (h3 : strStartsWith s "http://doi.org/" = false) :
    formatDoi s = "doi:" ++ s := by
  unfold formatDoi
  rw [show stripDoiUrlPrefix s = s by
    simp only [stripDoiUrlPrefix, strStartsWith_false h2, strStartsWith_false h3]]
  rw [if_neg (by simp [h1])]

/-- C4 witness: at `s = "10.1/x"`. -/
theorem c4_formatDoi_prepends_witness :
    strStartsWith "10.1/x" "doi:" = false ∧ formatDoi "10.1/x" = "doi:10.1/x" :=
  ⟨by decide, c4_formatDoi_prepends "10.1/x" (by decide) (by decide) (by decide)⟩

/-- C5 counterexample: the regex `/^https?:\/\/doi\.org\//` has no `i`
flag, so an upper-case scheme is not stripped: `formatDoi` on
`"HTTP://doi.org/10.1/x"` keeps the URL and merely prepends `doi:`,
refuting the claim that the scheme is matched case-insensitively. -/
theorem c5_counterexample :
    formatDoi "HTTP://doi.org/10.1/x" = "doi:HTTP://doi.org/10.1/x" ∧
    formatDoi "HTTP://doi.org/10.1/x" ≠ "doi:10.1/x" := by
  constructor
  · decide
  · decide

/-- C5 amended: the scheme is matched case-sensitively (lower-case
`http://` or `https://` only, host `doi.org` exact): for every `rest`,
the leading URL prefix is stripped, and in particular
`formatDoi "https://doi.org/10.1/x" = "doi:10.1/x"`. -/
theorem c5_amended_strips_lowercase_scheme (rest : String) :
    stripDoiUrlPrefix ("https://doi.org/" ++ rest) = rest ∧
    stripDoiUrlPrefix ("http://doi.org/" ++ rest) = rest ∧
    formatDoi "https://doi.org/10.1/x" = "doi:10.1/x" := by
  refine ⟨?_, ?_, by decide⟩
  · unfold stripDoiUrlPrefix
    rw [show ("https://doi.org/" ++ rest).data = "https://doi.org/".data ++ rest.data from rfl,
      stripPrefixCh_append]
  · unfold stripDoiUrlPrefix
    rw [show stripPrefixCh "https://doi.org/".data ("http://doi.org/" ++ rest).data
        = none from rfl]
    rw [show ("http://doi.org/" ++ rest).data = "http://doi.org/".data ++ rest.data from rfl,
      stripPrefixCh_append]

/-- C6: both normalization helpers are idempotent, and `formatIssn`
returns `s` unchanged when `s` already starts with `issn:` and
`"issn:" ++ s` otherwise. -/
theorem c6_normalizers_idempotent (s : String) :
    formatDoi (formatDoi s) = formatDoi s ∧
    formatIssn (formatIssn s) = formatIssn s ∧
    (strStartsWith s "issn:" = true → formatIssn s = s) ∧
    (strStartsWith s "issn:" = false → formatIssn s = "issn:" ++ s) := by
  refine ⟨formatDoi_of_startsWith (formatDoi_startsWith s),
    formatIssn_of_startsWith (formatIssn_startsWith s), ?_, ?_⟩
  · intro h
    exact formatIssn_of_startsWith h
  · intro h
    unfold formatIssn
    rw [if_neg (by simp [h])]

/-- C6 witness: idempotence at a URL-form DOI, and the two `formatIssn`
branches at `"issn:0138-9130"` and `"0138-9130"`. -/
theorem c6_normalizers_idempotent_witness :
    formatDoi (formatDoi "https://doi.org/10.1/x") = formatDoi "https://doi.org/10.1/x" ∧
    formatIssn "issn:0138-9130" = "issn:0138-9130" ∧
    formatIssn "0138-9130" = "issn:" ++ "0138-9130" :=
  ⟨(c6_normalizers_idempotent "https://doi.org/10.1/x").1,
   (c6_normalizers_idempotent "issn:0138-9130").2.2.1 (by decide),
   (c6_normalizers_idempotent "0138-9130").2.2.2 (by decide)⟩

/-- C1: for every identifier and optional token, when the remote API
answers a non-2xx status (`response.ok` false), each of the six
operations fails with a `requestFailure` carrying the numeric status and
the status text of that response; none returns an `ok` value. -/
theorem c1_non2xx_fails (id oci issn : String) (tok : Option String)
    (respC : FetchResponse (List CitationCount)) (respL : FetchResponse (List Citation))
    (hC : respOk respC = false) (hL : respOk respL = false) :
    getCitationCount (fun _ => respC) id tok
      = .error (.requestFailure respC.status respC.statusText) ∧
    getCitations (fun _ => respL) id tok
      = .error (.requestFailure respL.status respL.statusText) ∧
    getReferenceCount (fun _ => respC) id tok
      = .error (.requestFailure respC.status respC.statusText) ∧
    getReferences (fun _ => respL) id tok
      = .error (.requestFailure respL.status respL.statusText) ∧
    getCitation (fun _ => respL) oci tok
      = .error (.requestFailure respL.status respL.statusText) ∧
    getVenueCitationCount (fun _ => respC) issn tok
      = .error (.requestFailure respC.status respC.statusText) := by
  have hC' : ∀ e t, apiRequest (fun _ => respC) e t
      = .error (.requestFailure respC.status respC.statusText) := by
    intro e t
    unfold apiRequest
    rw [if_neg (by simp [hC])]
  have hL' : ∀ e t, apiRequest (fun _ => respL) e t
      = .error (.requestFailure respL.status respL.statusText) := by
    intro e t
    unfold apiRequest
    rw [if_neg (by simp [hL])]
  refine ⟨?_, ?_, ?_, ?_, ?_, ?_⟩ <;>
    simp [getCitationCount, getCitations, getReferenceCount, getReferences,
      getCitation, getVenueCitationCount, hC', hL']

/-- C1 witness: a 404 response makes all six operations fail with
`requestFailure 404 "Not Found"`. -/
theorem c1_non2xx_fails_witness :
    getCitationCount (fun _ => ⟨404, "Not Found", []⟩) "doi:10.1/x" none
      = .error (.requestFailure 404 "Not Found") ∧
    getCitations (fun _ => ⟨404, "Not Found", []⟩) "doi:10.1/x" none
      = .error (.requestFailure 404 "Not Found") ∧
    getReferenceCount (fun _ => ⟨404, "Not Found", []⟩) "doi:10.1/x" none
      = .error (.requestFailure 404 "Not Found") ∧
    getReferences (fun _ => ⟨404, "Not Found", []⟩) "doi:10.1/x" none
      = .error (.requestFailure 404 "Not Found") ∧
    getCitation (fun _ => ⟨404, "Not Found", []⟩) "06101801781-06180334099" none
      = .error (.requestFailure 404 "Not Found") ∧
    getVenueCitationCount (fun _ => ⟨404, "Not Found", []⟩) "issn:0138-9130" none
      = .error (.requestFailure 404 "Not Found") :=
  c1_non2xx_fails "doi:10.1/x" "06101801781-06180334099" "issn:0138-9130" none
    ⟨404, "Not Found", []⟩ ⟨404, "Not Found", []⟩ (by decide) (by decide)

/-- C2: on a successfully decoded (2xx) response of each of the three
count operations, an empty list gives 0 and a non-empty list gives
`parseInt(first.count, 10)`, later elements ignored; in particular a
body `[{count: "38"}]` gives 38. -/
theorem c2_count_decode (id issn : String) (tok : Option String)
    (resp : FetchResponse (List CitationCount)) (hok : respOk resp = true) :
    (resp.body = [] →
      getCitationCount (fun _ => resp) id tok = .ok (some 0) ∧
      getReferenceCount (fun _ => resp) id tok = .ok (some 0) ∧
      getVenueCitationCount (fun _ => resp) issn tok = .ok (some 0)) ∧
    (∀ c rest, resp.body = c :: rest →
      getCitationCount (fun _ => resp) id tok = .ok (jsParseInt c.count) ∧
      getReferenceCount (fun _ => resp) id tok = .ok (jsParseInt c.count) ∧
      getVenueCitationCount (fun _ => resp) issn tok = .ok (jsParseInt c.count)) ∧
    (∀ rest, resp.body = ⟨"38"⟩ :: rest →
      getCitationCount (fun _ => resp) id tok = .ok (some 38) ∧
      getReferenceCount (fun _ => resp) id tok = .ok (some 38) ∧
      getVenueCitationCount (fun _ => resp) issn tok = .ok (some 38)) := by
  have hreq : ∀ e t, apiRequest (fun _ => resp) e t = .ok resp.body := by
    intro e t
    unfold apiRequest
    rw [if_pos hok]
  refine ⟨fun hb => ?_, fun c rest hb => ?_, fun rest hb => ?_⟩
  · simp [getCitationCount, getReferenceCount, getVenueCitationCount, hreq, hb]
  · simp [getCitationCount, getReferenceCount, getVenueCitationCount, hreq, hb]
  · simp [getCitationCount, getReferenceCount, getVenueCitationCount, hreq, hb]
    decide

/-- C2 witness: body `[]` decodes to 0 and body `[{count: "38"}]` to 38. -/
theorem c2_count_decode_witness :
    getCitationCount (fun _ => ⟨200, "OK", []⟩) "doi:10.1/x" none = .ok (some 0) ∧
    getCitationCount (fun _ => ⟨200, "OK", [⟨"38"⟩]⟩) "doi:10.1/x" none = .ok (some 38) :=
  ⟨((c2_count_decode "doi:10.1/x" "issn:0138-9130" none ⟨200, "OK", []⟩ (by decide)).1
      rfl).1,
   ((c2_count_decode "doi:10.1/x" "issn:0138-9130" none ⟨200, "OK", [⟨"38"⟩]⟩
      (by decide)).2.2 [] rfl).1⟩

/-- C3: on a successfully decoded (2xx) response of `getCitation`, an
empty list yields `ok none` (an absent value, not an error) and a
non-empty list yields `ok (some first)`. -/
theorem c3_single_citation_decode (oci : String) (tok : Option String)
    (resp : FetchResponse (List Citation)) (hok : respOk resp = true) :
    (resp.body = [] → getCitation (fun _ => resp) oci tok = .ok none) ∧
    (∀ c rest, resp.body = c :: rest →
      getCitation (fun _ => resp) oci tok = .ok (some c)) := by
  have hreq : ∀ e t, apiRequest (fun _ => resp) e t = .ok resp.body := by
    intro e t
    unfold apiRequest
    rw [if_pos hok]
  refine ⟨fun hb => ?_, fun c rest hb => ?_⟩ <;>
    simp [getCitation, hreq, hb]

/-- C3 witness: empty body yields `ok none`, a one-record body yields
that record. -/
theorem c3_single_citation_decode_witness :
    getCitation (fun _ => ⟨200, "OK", []⟩) "06101801781-06180334099" none = .ok none ∧
    getCitation (fun _ => ⟨200, "OK", [⟨"o", "a", "b", "2020-01-01", "P1Y", "no", "no"⟩]⟩)
      "06101801781-06180334099" none
      = .ok (some ⟨"o", "a", "b", "2020-01-01", "P1Y", "no", "no"⟩) :=
  ⟨(c3_single_citation_decode "06101801781-06180334099" none ⟨200, "OK", []⟩
      (by decide)).1 rfl,
   (c3_single_citation_decode "06101801781-06180334099" none
      ⟨200, "OK", [⟨"o", "a", "b", "2020-01-01", "P1Y", "no", "no"⟩]⟩
      (by decide)).2 ⟨"o", "a", "b", "2020-01-01", "P1Y", "no", "no"⟩ [] rfl⟩

/-- C7 counterexample: when the supplied token is the empty string, the
built request carries no `Authorization` header at all, so the claim
that a supplied token is always sent verbatim fails at `some ""`. -/
theorem c7_counterexample :
    (builtRequest "/citations/doi:10.1/x" (some "")).headers
      = [("Accept", "application/json")] ∧
    ("Authorization", "") ∉ (builtRequest "/citations/doi:10.1/x" (some "")).headers := by
  constructor
  · decide
  · decide

/-- C7 amended: when a non-empty token is supplied, the headers are
exactly `Accept` followed by `Authorization` bound to the token verbatim
(no scheme prefix); when no token is supplied the `Authorization` header
is absent entirely (the empty-string token also yields no header, as C10
records). -/
theorem c7_amended_authorization_header (endpoint : String) (t : String) (ht : t ≠ "") :
    (builtRequest endpoint (some t)).headers
      = [("Accept", "application/json"), ("Authorization", t)] ∧
    (builtRequest endpoint (some t)).headers.lookup "Authorization" = some t ∧
    (builtRequest endpoint none).headers = [("Accept", "application/json")] ∧
    (builtRequest endpoint none).headers.lookup "Authorization" = none := by
  refine ⟨?_, ?_, rfl, rfl⟩
  · simp [builtRequest, buildHeaders, ht]
  · simp [builtRequest, buildHeaders, ht, List.lookup]

/-- C7 amended witness: at token `"mytoken"`. -/
theorem c7_amended_authorization_header_witness :
    (builtRequest "/citations/doi:10.1/x" (some "mytoken")).headers
      = [("Accept", "application/json"), ("Authorization", "mytoken")] ∧
    (builtRequest "/citations/doi:10.1/x" (some "mytoken")).headers.lookup "Authorization"
      = some "mytoken" ∧
    (builtRequest "/citations/doi:10.1/x" none).headers = [("Accept", "application/json")] ∧
    (builtRequest "/citations/doi:10.1/x" none).headers.lookup "Authorization" = none :=
  c7_amended_authorization_header "/citations/doi:10.1/x" "mytoken" (by decide)

/-- C10: supplying the empty string as access token builds exactly the
same headers as supplying no token, with no `Authorization` header, since
`if (accessToken)` is false for the empty string. -/
theorem c10_empty_token_no_header (endpoint : String) :
    (builtRequest endpoint (some "")).headers = (builtRequest endpoint none).headers ∧
    (builtRequest endpoint (some "")).headers.lookup "Authorization" = none ∧
    (builtRequest endpoint (some "")).headers = [("Accept", "application/json")] := by
  refine ⟨rfl, rfl, rfl⟩

lemma eq_nth_of_string_eq {s t : String} (k : Nat) (h : s = t) {a b : Char}
    (ha : s.data.get? k = some a) (hb : t.data.get? k = some b) : a = b := by
  subst h
  rw [ha] at hb
  exact Option.some.inj hb

lemma journal_ann_not_mem_base (i : Nat) (c : Citation) :
    "    (Journal self-citation)" ∉
      ["[" ++ toString (i + 1) ++ "] OCI: " ++ c.oci,
       "    Citing: " ++ c.citing,
       "    Cited: " ++ c.cited,
       "    Date: " ++ jsOr c.creation "N/A"] := by
  intro hmem
  simp only [List.mem_cons, List.not_mem_nil, or_false] at hmem
  rcases hmem with h | h | h | h
  · exact absurd (eq_nth_of_string_eq 0 h rfl rfl) (by decide)
  · exact absurd (eq_nth_of_string_eq 4 h rfl rfl) (by decide)
  · exact absurd (eq_nth_of_string_eq 4 h rfl rfl) (by decide)
  · exact absurd (eq_nth_of_string_eq 4 h rfl rfl) (by decide)

lemma author_ann_not_mem_base (i : Nat) (c : Citation) :
    "    (Author self-citation)" ∉
      ["[" ++ toString (i + 1) ++ "] OCI: " ++ c.oci,
       "    Citing: " ++ c.citing,
       "    Cited: " ++ c.cited,
       "    Date: " ++ jsOr c.creation "N/A"] := by
  intro hmem
  simp only [List.mem_cons, List.not_mem_nil, or_false] at hmem
  rcases hmem with h | h | h | h
  · exact absurd (eq_nth_of_string_eq 0 h rfl rfl) (by decide)
  · exact absurd (eq_nth_of_string_eq 4 h rfl rfl) (by decide)
  · exact absurd (eq_nth_of_string_eq 4 h rfl rfl) (by decide)
  · exact absurd (eq_nth_of_string_eq 4 h rfl rfl) (by decide)

lemma journal_mem_blockLines_iff (i : Nat) (c : Citation) :
    "    (Journal self-citation)" ∈ citationBlockLines i c ↔ c.journal_sc = "yes" := by
  unfold citationBlockLines
  by_cases hj : c.journal_sc = "yes"
  · rw [if_pos hj, iff_true_intro hj, iff_true]
    simp
  · rw [if_neg hj, iff_false_intro hj, iff_false, List.append_nil]
    intro hmem
    rw [List.mem_append] at hmem
    rcases hmem with hmem | hmem
    · exact journal_ann_not_mem_base i c hmem
    · by_cases ha : c.author_sc = "yes"
      · rw [if_pos ha] at hmem
        simp only [List.mem_cons, List.not_mem_nil, or_false] at hmem
        exact absurd hmem (by decide)
      · rw [if_neg ha] at hmem
        exact List.not_mem_nil _ hmem

lemma author_mem_blockLines_iff (i : Nat) (c : Citation) :
    "    (Author self-citation)" ∈ citationBlockLines i c ↔ c.author_sc = "yes" := by
  unfold citationBlockLines
  by_cases ha : c.author_sc = "yes"
  · rw [if_pos ha, iff_true_intro ha, iff_true]
    simp
  · rw [if_neg ha, iff_false_intro ha, iff_false, List.append_nil]
    intro hmem
    rw [List.mem_append] at hmem
    rcases hmem with hmem | hmem
    · exact author_ann_not_mem_base i c hmem
    · by_cases hj : c.journal_sc = "yes"
      · rw [if_pos hj] at hmem
        simp only [List.mem_cons, List.not_mem_nil, or_false] at hmem
        exact absurd hmem (by decide)
      · rw [if_neg hj] at hmem
        exact List.not_mem_nil _ hmem

/-- C8: `formatCitationAsText` renders exactly seven lines in the fixed
order OCI, Citing, Cited, Date, Timespan, Journal self-citation, Author
self-citation; an empty `creation` or `timespan` renders as `N/A`, an
empty `journal_sc` or `author_sc` renders as `no`, and no line is ever
blank. -/
theorem c8_format_citation_lines (c : Citation) :
    (formatCitationLines c).length = 7 ∧
    formatCitationAsText c = String.intercalate "\n" (formatCitationLines c) ∧
    (formatCitationLines c)[0]? = some ("OCI: " ++ c.oci) ∧
    (formatCitationLines c)[1]? = some ("Citing: " ++ c.citing) ∧
    (formatCitationLines c)[2]? = some ("Cited: " ++ c.cited) ∧
    (c.creation = "" → (formatCitationLines c)[3]? = some "Date: N/A") ∧
    (c.creation ≠ "" → (formatCitationLines c)[3]? = some ("Date: " ++ c.creation)) ∧
    (c.timespan = "" → (formatCitationLines c)[4]? = some "Timespan: N/A") ∧
    (c.timespan ≠ "" → (formatCitationLines c)[4]? = some ("Timespan: " ++ c.timespan)) ∧
    (c.journal_sc = "" →
      (formatCitationLines c)[5]? = some "Journal self-citation: no") ∧
    (c.journal_sc ≠ "" →
      (formatCitationLines c)[5]? = some ("Journal self-citation: " ++ c.journal_sc)) ∧
    (c.author_sc = "" →
      (formatCitationLines c)[6]? = some "Author self-citation: no") ∧
    (c.author_sc ≠ "" →
      (formatCitationLines c)[6]? = some ("Author self-citation: " ++ c.author_sc)) ∧
    (∀ line ∈ formatCitationLines c, line ≠ "") := by
  refine ⟨rfl, rfl, rfl, rfl, rfl, ?_, ?_, ?_, ?_, ?_, ?_, ?_, ?_, ?_⟩
  · intro h; simp [formatCitationLines, jsOr, h]
  · intro h; simp [formatCitationLines, jsOr, h]
  · intro h; simp [formatCitationLines, jsOr, h]
  · intro h; simp [formatCitationLines, jsOr, h]
  · intro h; simp [formatCitationLines, jsOr, h]
  · intro h; simp [formatCitationLines, jsOr, h]
  · intro h; simp [formatCitationLines, jsOr, h]
  · intro h; simp [formatCitationLines, jsOr, h]
  · intro line hline
    simp only [formatCitationLines, List.mem_cons, List.not_mem_nil, or_false] at hline
    rcases hline with rfl | rfl | rfl | rfl | rfl | rfl | rfl <;>
      exact string_ne_of_nth_none (k := 0) rfl rfl

/-- C8 witness: at a record with empty `creation`, `timespan`,
`journal_sc` and `author_sc`, the defaulted lines read `Date: N/A`,
`Timespan: N/A`, `Journal self-citation: no`, `Author self-citation: no`. -/
theorem c8_format_citation_lines_witness :
    (formatCitationLines ⟨"o", "a", "b", "", "", "", ""⟩)[3]? = some "Date: N/A" ∧
    (formatCitationLines ⟨"o", "a", "b", "", "", "", ""⟩)[4]? = some "Timespan: N/A" ∧
    (formatCitationLines ⟨"o", "a", "b", "", "", "", ""⟩)[5]?
      = some "Journal self-citation: no" ∧
    (formatCitationLines ⟨"o", "a", "b", "", "", "", ""⟩)[6]?
      = some "Author self-citation: no" :=
  ⟨(c8_format_citation_lines ⟨"o", "a", "b", "", "", "", ""⟩).2.2.2.2.2.1 rfl,
   (c8_format_citation_lines ⟨"o", "a", "b", "", "", "", ""⟩).2.2.2.2.2.2.2.1 rfl,
   (c8_format_citation_lines ⟨"o", "a", "b", "", "", "", ""⟩).2.2.2.2.2.2.2.2.2.1 rfl,
   (c8_format_citation_lines ⟨"o", "a", "b", "", "", "", ""⟩).2.2.2.2.2.2.2.2.2.2.2.1 rfl⟩

/-- C9: `formatCitationsAsText` returns exactly `"No citations found."`
on the empty list; on a non-empty list it joins the per-entry blocks with
a blank-line separator, where the block of the entry at zero-based index
`i` starts with the four lines `[i+1] OCI`, `Citing`, `Cited`, `Date`,
and carries a journal (resp. author) self-citation annotation line
exactly when the corresponding flag equals `"yes"`. -/
theorem c9_format_citation_list :
    formatCitationsAsText [] = "No citations found." ∧
    (∀ cs : List Citation, cs ≠ [] →
      formatCitationsAsText cs = String.intercalate "\n\n"
        (cs.enum.map (fun p => String.intercalate "\n" (citationBlockLines p.1 p.2)))) ∧
    (∀ (i : Nat) (c : Citation),
      (citationBlockLines i c).take 4
        = ["[" ++ toString (i + 1) ++ "] OCI: " ++ c.oci,
           "    Citing: " ++ c.citing,
           "    Cited: " ++ c.cited,
           "    Date: " ++ jsOr c.creation "N/A"] ∧
      ("    (Journal self-citation)" ∈ citationBlockLines i c ↔ c.journal_sc = "yes") ∧
      ("    (Author self-citation)" ∈ citationBlockLines i c ↔ c.author_sc = "yes")) := by
  refine ⟨rfl, fun cs hcs => ?_, fun i c => ⟨?_, journal_mem_blockLines_iff i c,
    author_mem_blockLines_iff i c⟩⟩
  · unfold formatCitationsAsText
    rw [if_neg (by simp [hcs])]
  · unfold citationBlockLines
    by_cases hj : c.journal_sc = "yes" <;> by_cases ha : c.author_sc = "yes" <;>
      simp [hj, ha]

/-- C9 witness: a two-record list where only the second record is a
journal self-citation renders as two blocks separated by a blank line,
with exactly one annotation line, in the second block. -/
theorem c9_format_citation_list_witness :
    formatCitationsAsText [] = "No citations found." ∧
    formatCitationsAsText
      [⟨"o1", "a1", "b1", "2020-01-01", "P1Y", "no", "no"⟩,
       ⟨"o2", "a2", "b2", "2021-02-02", "P2Y", "yes", "no"⟩]
      = "[1] OCI: o1\n    Citing: a1\n    Cited: b1\n    Date: 2020-01-01\n\n"
        ++ "[2] OCI: o2\n    Citing: a2\n    Cited: b2\n    Date: 2021-02-02\n"
        ++ "    (Journal self-citation)" ∧
    ("    (Journal self-citation)"
      ∈ citationBlockLines 1 ⟨"o2", "a2", "b2", "2021-02-02", "P2Y", "yes", "no"⟩) ∧
    ("    (Journal self-citation)"
      ∉ citationBlockLines 0 ⟨"o1", "a1", "b1", "2020-01-01", "P1Y", "no", "no"⟩) := by
  refine ⟨c9_format_citation_list.1, ?_, ?_, ?_⟩
  · rw [c9_format_citation_list.2.1 _ (by decide)]
    decide
  · exact (c9_format_citation_list.2.2 1
      ⟨"o2", "a2", "b2", "2021-02-02", "P2Y", "yes", "no"⟩).2.1.mpr rfl
  · intro hmem
    exact absurd ((c9_format_citation_list.2.2 0
      ⟨"o1", "a1", "b1", "2020-01-01", "P1Y", "no", "no"⟩).2.1.mp hmem) (by decide)

end OpenCitations
